import Mathlib

/-!
Shallow embedding of the query-analytics (QAN) core of project-obsidian-core.

Conventions of the embedding:
* Go `int64`/`int` fields are modelled as `Int`.
* Go `float64` fields of the snapshot/delta/log layer are modelled as `Rat`
  (the code only adds, subtracts, divides and compares them), which keeps
  every definition executable; `float64` arithmetic of the adaptive governor
  is modelled as real arithmetic (`ℝ`) because the governor calls
  `math.Pow(2, x)` with a fractional exponent.
* `time.Time` values are modelled by their wall-clock reading in seconds
  (`Rat`); `t2.Sub(t1).Seconds()` becomes subtraction.  `time.Duration`
  values of the governor are modelled as real nanoseconds.
* Go maps keyed by strings are modelled as association lists (snapshots,
  whose iteration order is unspecified in Go) or as functions
  `String → Option _` (the snapshot store).
* Database and file I/O is factored out: fetch results are passed in as an
  `Except` value, exactly as the Go collectors receive them from their
  `collectSnapshot` / `collectMySQLMetrics` helpers.  Log-record timestamps
  (`time.Now()` at emission) are omitted from the log model; no claim
  mentions them.
-/

/-- A pdata attribute value: string, int64 or double. -/
inductive AttrVal where
  | str : String → AttrVal
  | int : Int → AttrVal
  | double : Rat → AttrVal
deriving DecidableEq

/-- One plog log record: severity text, body, and its attribute map
(modelled as the association list written in insertion order). -/
structure LogRecord where
  SeverityText : String
  Body : String
  Attrs : List (String × AttrVal)
deriving DecidableEq

/-- One plog resource-logs entry with a single instrumentation scope,
as built by both `deltaToLogs` implementations. -/
structure ResourceLogRec where
  ResourceAttrs : List (String × AttrVal)
  ScopeName : String
  Records : List LogRecord
deriving DecidableEq

namespace Mysql

/-- `mysql.DigestData`: one row of
`performance_schema.events_statements_summary_by_digest`. -/
structure DigestData where
  Digest : String
  SchemaName : String
  DigestText : String
  CountStar : Int
  SumTimerWait : Int
  SumLockTime : Int
  SumErrors : Int
  SumWarnings : Int
  SumRowsAffected : Int
  SumRowsSent : Int
  SumRowsExamined : Int
  SumCreatedTmpTables : Int
  SumCreatedTmpDiskTables : Int
  SumSortRows : Int
  SumNoIndexUsed : Int
  SumNoGoodIndexUsed : Int
  Timestamp : Rat
deriving DecidableEq

/-- `mysql.Snapshot`: the digest map is modelled as a list of rows
(Go map iteration order is unspecified; the list fixes one order). -/
structure Snapshot where
  Digests : List DigestData
  Timestamp : Rat
  InstanceID : String
deriving DecidableEq

/-- `mysql.DeltaResult`. -/
structure DeltaResult where
  Digest : String
  SchemaName : String
  DigestText : String
  TimePeriodSecs : Rat
  DeltaCountStar : Int
  DeltaSumTimerWait : Int
  DeltaSumLockTime : Int
  DeltaSumErrors : Int
  DeltaSumWarnings : Int
  DeltaSumRowsAffected : Int
  DeltaSumRowsSent : Int
  DeltaSumRowsExamined : Int
  DeltaSumCreatedTmpTables : Int
  DeltaSumCreatedTmpDiskTables : Int
  DeltaSumSortRows : Int
  DeltaSumNoIndexUsed : Int
  DeltaSumNoGoodIndexUsed : Int
deriving DecidableEq

/-- The `calcDelta` closure of `mysql.CalculateDeltas`: reset-aware
subtraction on integer counters. -/
def calcDelta (curr prev : Int) : Int :=
  if curr ≥ prev then curr - prev else curr

/-- Lookup `prev.Digests[digest]` (Go map indexing, comma-ok form). -/
def lookupDigest (l : List DigestData) (k : String) : Option DigestData :=
  l.find? (fun d => d.Digest == k)

/-- The per-digest body of the loop in `mysql.CalculateDeltas`: `none`
when the loop emits nothing for this digest (the `continue`d filter),
`some r` when it appends the record `r`.  The Go code computes
`deltaCountStar` with an inline conditional identical to `calcDelta`. -/
def deltaForDigest (prev : Snapshot) (timeDiffSecs : Rat)
    (currData : DigestData) : Option DeltaResult :=
  match lookupDigest prev.Digests currData.Digest with
  | none => some
      { Digest := currData.Digest
        SchemaName := currData.SchemaName
        DigestText := currData.DigestText
        TimePeriodSecs := timeDiffSecs
        DeltaCountStar := currData.CountStar
        DeltaSumTimerWait := currData.SumTimerWait
        DeltaSumLockTime := currData.SumLockTime
        DeltaSumErrors := currData.SumErrors
        DeltaSumWarnings := currData.SumWarnings
        DeltaSumRowsAffected := currData.SumRowsAffected
        DeltaSumRowsSent := currData.SumRowsSent
        DeltaSumRowsExamined := currData.SumRowsExamined
        DeltaSumCreatedTmpTables := currData.SumCreatedTmpTables
        DeltaSumCreatedTmpDiskTables := currData.SumCreatedTmpDiskTables
        DeltaSumSortRows := currData.SumSortRows
        DeltaSumNoIndexUsed := currData.SumNoIndexUsed
        DeltaSumNoGoodIndexUsed := currData.SumNoGoodIndexUsed }
  | some prevData =>
      let deltaCountStar := calcDelta currData.CountStar prevData.CountStar
      if deltaCountStar > 0 then some
        { Digest := currData.Digest
          SchemaName := currData.SchemaName
          DigestText := currData.DigestText
          TimePeriodSecs := timeDiffSecs
          DeltaCountStar := deltaCountStar
          DeltaSumTimerWait := calcDelta currData.SumTimerWait prevData.SumTimerWait
          DeltaSumLockTime := calcDelta currData.SumLockTime prevData.SumLockTime
          DeltaSumErrors := calcDelta currData.SumErrors prevData.SumErrors
          DeltaSumWarnings := calcDelta currData.SumWarnings prevData.SumWarnings
          DeltaSumRowsAffected := calcDelta currData.SumRowsAffected prevData.SumRowsAffected
          DeltaSumRowsSent := calcDelta currData.SumRowsSent prevData.SumRowsSent
          DeltaSumRowsExamined := calcDelta currData.SumRowsExamined prevData.SumRowsExamined
          DeltaSumCreatedTmpTables := calcDelta currData.SumCreatedTmpTables prevData.SumCreatedTmpTables
          DeltaSumCreatedTmpDiskTables := calcDelta currData.SumCreatedTmpDiskTables prevData.SumCreatedTmpDiskTables
          DeltaSumSortRows := calcDelta currData.SumSortRows prevData.SumSortRows
          DeltaSumNoIndexUsed := calcDelta currData.SumNoIndexUsed prevData.SumNoIndexUsed
          DeltaSumNoGoodIndexUsed := calcDelta currData.SumNoGoodIndexUsed prevData.SumNoGoodIndexUsed }
      else none

/-- `mysql.CalculateDeltas` (the snapshots are taken by value; the Go
`nil` guard is outside the modelled domain, every claim quantifies over
non-nil snapshots).  `timeDiffSecs` is
`curr.Timestamp.Sub(prev.Timestamp).Seconds()`, computed once before
the loop. -/
def CalculateDeltas (prev curr : Snapshot) : List DeltaResult :=
  curr.Digests.filterMap (deltaForDigest prev (curr.Timestamp - prev.Timestamp))

/-- The data-model invariant of §3 of the specification for a MySQL
row: all monotonic counters are non-negative. -/
abbrev NonnegCounters (d : DigestData) : Prop :=
  0 ≤ d.CountStar ∧ 0 ≤ d.SumTimerWait ∧ 0 ≤ d.SumLockTime ∧
  0 ≤ d.SumErrors ∧ 0 ≤ d.SumWarnings ∧ 0 ≤ d.SumRowsAffected ∧
  0 ≤ d.SumRowsSent ∧ 0 ≤ d.SumRowsExamined ∧ 0 ≤ d.SumCreatedTmpTables ∧
  0 ≤ d.SumCreatedTmpDiskTables ∧ 0 ≤ d.SumSortRows ∧
  0 ≤ d.SumNoIndexUsed ∧ 0 ≤ d.SumNoGoodIndexUsed

/-- All counter deltas of a MySQL delta record are non-negative. -/
abbrev NonnegDeltas (r : DeltaResult) : Prop :=
  0 ≤ r.DeltaCountStar ∧ 0 ≤ r.DeltaSumTimerWait ∧ 0 ≤ r.DeltaSumLockTime ∧
  0 ≤ r.DeltaSumErrors ∧ 0 ≤ r.DeltaSumWarnings ∧ 0 ≤ r.DeltaSumRowsAffected ∧
  0 ≤ r.DeltaSumRowsSent ∧ 0 ≤ r.DeltaSumRowsExamined ∧
  0 ≤ r.DeltaSumCreatedTmpTables ∧ 0 ≤ r.DeltaSumCreatedTmpDiskTables ∧
  0 ≤ r.DeltaSumSortRows ∧ 0 ≤ r.DeltaSumNoIndexUsed ∧
  0 ≤ r.DeltaSumNoGoodIndexUsed

/-- The per-record attribute list built by `mysql.Collector.deltaToLogs`,
in the insertion order of the Go code. -/
def logAttrs (delta : DeltaResult) : List (String × AttrVal) :=
  [ ("db.statement.digest", AttrVal.str delta.Digest)
  , ("db.statement.sample", AttrVal.str delta.DigestText)
  , ("db.schema", AttrVal.str delta.SchemaName)
  , ("db.query.calls.delta", AttrVal.int delta.DeltaCountStar)
  , ("db.query.total_timer_wait.delta", AttrVal.int delta.DeltaSumTimerWait)
  , ("db.query.lock_time.delta", AttrVal.int delta.DeltaSumLockTime)
  , ("db.query.errors.delta", AttrVal.int delta.DeltaSumErrors)
  , ("db.query.warnings.delta", AttrVal.int delta.DeltaSumWarnings)
  , ("db.query.rows_affected.delta", AttrVal.int delta.DeltaSumRowsAffected)
  , ("db.query.rows_sent.delta", AttrVal.int delta.DeltaSumRowsSent)
  , ("db.query.rows_examined.delta", AttrVal.int delta.DeltaSumRowsExamined)
  , ("db.query.created_tmp_tables.delta", AttrVal.int delta.DeltaSumCreatedTmpTables)
  , ("db.query.created_tmp_disk_tables.delta", AttrVal.int delta.DeltaSumCreatedTmpDiskTables)
  , ("db.query.sort_rows.delta", AttrVal.int delta.DeltaSumSortRows)
  , ("db.query.no_index_used.delta", AttrVal.int delta.DeltaSumNoIndexUsed)
  , ("db.query.no_good_index_used.delta", AttrVal.int delta.DeltaSumNoGoodIndexUsed)
  , ("db.query.time_period_seconds", AttrVal.double delta.TimePeriodSecs) ]

/-- The loop body of `mysql.Collector.deltaToLogs`: deltas with
`DeltaCountStar <= 0` are skipped (`continue`), others become a record. -/
def logRecordForDelta (delta : DeltaResult) : Option LogRecord :=
  if delta.DeltaCountStar ≤ 0 then none
  else some
    { SeverityText := "INFO"
      Body := delta.DigestText
      Attrs := logAttrs delta }

/-- `mysql.Collector.deltaToLogs`.  An empty input yields an empty batch
(no resource entry at all). -/
def deltaToLogs (instanceID : String) (deltas : List DeltaResult) :
    List ResourceLogRec :=
  if deltas.length = 0 then []
  else
    [ { ResourceAttrs :=
          [ ("service.name", AttrVal.str "obsidian-core")
          , ("db.system", AttrVal.str "mysql")
          , ("resource.instance.id", AttrVal.str instanceID) ]
        ScopeName := "qanprocessor"
        Records := deltas.filterMap logRecordForDelta } ]

/-- `mysql.SnapshotStore`, as the map it wraps. -/
def SnapshotStore : Type := String → Option Snapshot

/-- `SnapshotStore.GetSnapshot`. -/
def GetSnapshot (s : SnapshotStore) (instanceID : String) : Option Snapshot :=
  s instanceID

/-- `SnapshotStore.StoreSnapshot`. -/
def StoreSnapshot (s : SnapshotStore) (instanceID : String)
    (snapshot : Snapshot) : SnapshotStore :=
  fun k => if k = instanceID then some snapshot else s k

/-- `mysql.Collector.Collect`.  The outcome of `collectSnapshot` (pure
DB I/O plus preflight checks) enters as the `fetch` argument; errors are
modelled as strings.  Returns the `(plog.Logs, error)` pair together
with the snapshot store left behind. -/
def Collect (instanceID : String) (fetch : Except String Snapshot)
    (store : SnapshotStore) :
    Except String (List ResourceLogRec) × SnapshotStore :=
  match fetch with
  | .error err => (.error err, store)
  | .ok snapshot =>
      let prevSnapshot := GetSnapshot store instanceID
      let store := StoreSnapshot store instanceID snapshot
      match prevSnapshot with
      | none => (.ok [], store)
      | some prev =>
          (.ok (deltaToLogs instanceID (CalculateDeltas prev snapshot)), store)

end Mysql

namespace Postgresql

/-- `postgresql.QueryData`: one row of `pg_stat_statements`. -/
structure QueryData where
  QueryID : String
  UserID : String
  DBID : String
  Query : String
  Calls : Int
  TotalPlanTime : Rat
  TotalExecTime : Rat
  Rows : Int
  SharedBlksHit : Int
  SharedBlksRead : Int
  SharedBlksDirtied : Int
  SharedBlksWritten : Int
  LocalBlksHit : Int
  LocalBlksRead : Int
  LocalBlksDirtied : Int
  LocalBlksWritten : Int
  TempBlksRead : Int
  TempBlksWritten : Int
  BlkReadTime : Rat
  BlkWriteTime : Rat
  Timestamp : Rat
deriving DecidableEq

/-- `postgresql.Snapshot`: the query map is modelled as a list of rows. -/
structure Snapshot where
  Queries : List QueryData
  Timestamp : Rat
  InstanceID : String
deriving DecidableEq

/-- `postgresql.DeltaResult`. -/
structure DeltaResult where
  QueryID : String
  UserID : String
  DBID : String
  Query : String
  TimePeriodSecs : Rat
  DeltaCalls : Int
  DeltaTotalPlanTime : Rat
  DeltaTotalExecTime : Rat
  DeltaRows : Int
  DeltaSharedBlksHit : Int
  DeltaSharedBlksRead : Int
  DeltaSharedBlksDirtied : Int
  DeltaSharedBlksWritten : Int
  DeltaLocalBlksHit : Int
  DeltaLocalBlksRead : Int
  DeltaLocalBlksDirtied : Int
  DeltaLocalBlksWritten : Int
  DeltaTempBlksRead : Int
  DeltaTempBlksWritten : Int
  DeltaBlkReadTime : Rat
  DeltaBlkWriteTime : Rat
deriving DecidableEq

/-- The `calcDeltaInt64` closure of `postgresql.CalculateDeltas`. -/
def calcDeltaInt64 (curr prev : Int) : Int :=
  if curr ≥ prev then curr - prev else curr

/-- The `calcDeltaFloat64` closure of `postgresql.CalculateDeltas`. -/
def calcDeltaFloat64 (curr prev : Rat) : Rat :=
  if curr ≥ prev then curr - prev else curr

/-- Lookup `prev.Queries[queryID]` (Go map indexing, comma-ok form). -/
def lookupQuery (l : List QueryData) (k : String) : Option QueryData :=
  l.find? (fun d => d.QueryID == k)

/-- The per-query body of the loop in `postgresql.CalculateDeltas`; the Go
code computes `deltaCalls` with an inline conditional identical to
`calcDeltaInt64`. -/
def deltaForQuery (prev : Snapshot) (timeDiffSecs : Rat)
    (currData : QueryData) : Option DeltaResult :=
  match lookupQuery prev.Queries currData.QueryID with
  | none => some
      { QueryID := currData.QueryID
        UserID := currData.UserID
        DBID := currData.DBID
        Query := currData.Query
        TimePeriodSecs := timeDiffSecs
        DeltaCalls := currData.Calls
        DeltaTotalPlanTime := currData.TotalPlanTime
        DeltaTotalExecTime := currData.TotalExecTime
        DeltaRows := currData.Rows
        DeltaSharedBlksHit := currData.SharedBlksHit
        DeltaSharedBlksRead := currData.SharedBlksRead
        DeltaSharedBlksDirtied := currData.SharedBlksDirtied
        DeltaSharedBlksWritten := currData.SharedBlksWritten
        DeltaLocalBlksHit := currData.LocalBlksHit
        DeltaLocalBlksRead := currData.LocalBlksRead
        DeltaLocalBlksDirtied := currData.LocalBlksDirtied
        DeltaLocalBlksWritten := currData.LocalBlksWritten
        DeltaTempBlksRead := currData.TempBlksRead
        DeltaTempBlksWritten := currData.TempBlksWritten
        DeltaBlkReadTime := currData.BlkReadTime
        DeltaBlkWriteTime := currData.BlkWriteTime }
  | some prevData =>
      let deltaCalls := calcDeltaInt64 currData.Calls prevData.Calls
      if deltaCalls > 0 then some
        { QueryID := currData.QueryID
          UserID := currData.UserID
          DBID := currData.DBID
          Query := currData.Query
          TimePeriodSecs := timeDiffSecs
          DeltaCalls := deltaCalls
          DeltaTotalPlanTime := calcDeltaFloat64 currData.TotalPlanTime prevData.TotalPlanTime
          DeltaTotalExecTime := calcDeltaFloat64 currData.TotalExecTime prevData.TotalExecTime
          DeltaRows := calcDeltaInt64 currData.Rows prevData.Rows
          DeltaSharedBlksHit := calcDeltaInt64 currData.SharedBlksHit prevData.SharedBlksHit
          DeltaSharedBlksRead := calcDeltaInt64 currData.SharedBlksRead prevData.SharedBlksRead
          DeltaSharedBlksDirtied := calcDeltaInt64 currData.SharedBlksDirtied prevData.SharedBlksDirtied
          DeltaSharedBlksWritten := calcDeltaInt64 currData.SharedBlksWritten prevData.SharedBlksWritten
          DeltaLocalBlksHit := calcDeltaInt64 currData.LocalBlksHit prevData.LocalBlksHit
          DeltaLocalBlksRead := calcDeltaInt64 currData.LocalBlksRead prevData.LocalBlksRead
          DeltaLocalBlksDirtied := calcDeltaInt64 currData.LocalBlksDirtied prevData.LocalBlksDirtied
          DeltaLocalBlksWritten := calcDeltaInt64 currData.LocalBlksWritten prevData.LocalBlksWritten
          DeltaTempBlksRead := calcDeltaInt64 currData.TempBlksRead prevData.TempBlksRead
          DeltaTempBlksWritten := calcDeltaInt64 currData.TempBlksWritten prevData.TempBlksWritten
          DeltaBlkReadTime := calcDeltaFloat64 currData.BlkReadTime prevData.BlkReadTime
          DeltaBlkWriteTime := calcDeltaFloat64 currData.BlkWriteTime prevData.BlkWriteTime }
      else none

/-- `postgresql.CalculateDeltas`; `timeDiffSecs` is computed once
before the loop. -/
def CalculateDeltas (prev curr : Snapshot) : List DeltaResult :=
  curr.Queries.filterMap (deltaForQuery prev (curr.Timestamp - prev.Timestamp))

/-- The data-model invariant of §3 of the specification for a Postgres
row: all monotonic counters are non-negative. -/
abbrev NonnegCounters (d : QueryData) : Prop :=
  0 ≤ d.Calls ∧ 0 ≤ d.TotalPlanTime ∧ 0 ≤ d.TotalExecTime ∧ 0 ≤ d.Rows ∧
  0 ≤ d.SharedBlksHit ∧ 0 ≤ d.SharedBlksRead ∧ 0 ≤ d.SharedBlksDirtied ∧
  0 ≤ d.SharedBlksWritten ∧ 0 ≤ d.LocalBlksHit ∧ 0 ≤ d.LocalBlksRead ∧
  0 ≤ d.LocalBlksDirtied ∧ 0 ≤ d.LocalBlksWritten ∧ 0 ≤ d.TempBlksRead ∧
  0 ≤ d.TempBlksWritten ∧ 0 ≤ d.BlkReadTime ∧ 0 ≤ d.BlkWriteTime

/-- All counter deltas of a Postgres delta record are non-negative. -/
abbrev NonnegDeltas (r : DeltaResult) : Prop :=
  0 ≤ r.DeltaCalls ∧ 0 ≤ r.DeltaTotalPlanTime ∧ 0 ≤ r.DeltaTotalExecTime ∧
  0 ≤ r.DeltaRows ∧ 0 ≤ r.DeltaSharedBlksHit ∧ 0 ≤ r.DeltaSharedBlksRead ∧
  0 ≤ r.DeltaSharedBlksDirtied ∧ 0 ≤ r.DeltaSharedBlksWritten ∧
  0 ≤ r.DeltaLocalBlksHit ∧ 0 ≤ r.DeltaLocalBlksRead ∧
  0 ≤ r.DeltaLocalBlksDirtied ∧ 0 ≤ r.DeltaLocalBlksWritten ∧
  0 ≤ r.DeltaTempBlksRead ∧ 0 ≤ r.DeltaTempBlksWritten ∧
  0 ≤ r.DeltaBlkReadTime ∧ 0 ≤ r.DeltaBlkWriteTime

/-- The per-record attribute list built by
`postgresql.Collector.deltaToLogs`, in the insertion order of the Go
code (the `rows_examined` synonym mirrors `DeltaRows`). -/
def logAttrs (delta : DeltaResult) : List (String × AttrVal) :=
  [ ("db.query.id", AttrVal.str delta.QueryID)
  , ("db.statement.sample", AttrVal.str delta.Query)
  , ("db.user.id", AttrVal.str delta.UserID)
  , ("db.name.id", AttrVal.str delta.DBID)
  , ("db.query.calls.delta", AttrVal.int delta.DeltaCalls)
  , ("db.query.total_plan_time.delta", AttrVal.double delta.DeltaTotalPlanTime)
  , ("db.query.total_exec_time.delta", AttrVal.double delta.DeltaTotalExecTime)
  , ("db.query.rows.delta", AttrVal.int delta.DeltaRows)
  , ("db.query.shared_blks_hit.delta", AttrVal.int delta.DeltaSharedBlksHit)
  , ("db.query.shared_blks_read.delta", AttrVal.int delta.DeltaSharedBlksRead)
  , ("db.query.shared_blks_dirtied.delta", AttrVal.int delta.DeltaSharedBlksDirtied)
  , ("db.query.shared_blks_written.delta", AttrVal.int delta.DeltaSharedBlksWritten)
  , ("db.query.local_blks_hit.delta", AttrVal.int delta.DeltaLocalBlksHit)
  , ("db.query.local_blks_read.delta", AttrVal.int delta.DeltaLocalBlksRead)
  , ("db.query.local_blks_dirtied.delta", AttrVal.int delta.DeltaLocalBlksDirtied)
  , ("db.query.local_blks_written.delta", AttrVal.int delta.DeltaLocalBlksWritten)
  , ("db.query.temp_blks_read.delta", AttrVal.int delta.DeltaTempBlksRead)
  , ("db.query.temp_blks_written.delta", AttrVal.int delta.DeltaTempBlksWritten)
  , ("db.query.blk_read_time.delta", AttrVal.double delta.DeltaBlkReadTime)
  , ("db.query.blk_write_time.delta", AttrVal.double delta.DeltaBlkWriteTime)
  , ("db.query.rows_examined.delta", AttrVal.int delta.DeltaRows)
  , ("db.query.time_period_seconds", AttrVal.double delta.TimePeriodSecs) ]

/-- The loop body of `postgresql.Collector.deltaToLogs`: deltas with
`DeltaCalls <= 0` are skipped (`continue`), others become a record. -/
def logRecordForDelta (delta : DeltaResult) : Option LogRecord :=
  if delta.DeltaCalls ≤ 0 then none
  else some
    { SeverityText := "INFO"
      Body := delta.Query
      Attrs := logAttrs delta }

/-- `postgresql.Collector.deltaToLogs`. -/
def deltaToLogs (instanceID : String) (deltas : List DeltaResult) :
    List ResourceLogRec :=
  if deltas.length = 0 then []
  else
    [ { ResourceAttrs :=
          [ ("service.name", AttrVal.str "obsidian-core")
          , ("db.system", AttrVal.str "postgresql")
          , ("resource.instance.id", AttrVal.str instanceID) ]
        ScopeName := "qanprocessor"
        Records := deltas.filterMap logRecordForDelta } ]

/-- `postgresql.SnapshotStore`, as the map it wraps. -/
def SnapshotStore : Type := String → Option Snapshot

/-- `SnapshotStore.GetSnapshot`. -/
def GetSnapshot (s : SnapshotStore) (instanceID : String) : Option Snapshot :=
  s instanceID

/-- `SnapshotStore.StoreSnapshot`. -/
def StoreSnapshot (s : SnapshotStore) (instanceID : String)
    (snapshot : Snapshot) : SnapshotStore :=
  fun k => if k = instanceID then some snapshot else s k

/-- `postgresql.Collector.Collect`, in the same style as
`Mysql.Collect`. -/
def Collect (instanceID : String) (fetch : Except String Snapshot)
    (store : SnapshotStore) :
    Except String (List ResourceLogRec) × SnapshotStore :=
  match fetch with
  | .error err => (.error err, store)
  | .ok snapshot =>
      let prevSnapshot := GetSnapshot store instanceID
      let store := StoreSnapshot store instanceID snapshot
      match prevSnapshot with
      | none => (.ok [], store)
      | some prev =>
          (.ok (deltaToLogs instanceID (CalculateDeltas prev snapshot)), store)

end Postgresql

namespace Adaptive

/-- `adaptive.MySQLMetrics` (package `adaptive`, MySQL load probe). -/
structure MySQLMetrics where
  ThreadsRunning : Int
  ThreadsConnected : Int
  Questions : Int
  SlowQueries : Int
  InnodbRowLockTime : Int
  Uptime : Int
  Timestamp : Rat
deriving DecidableEq

/-- `adaptive.MySQLMetricsDiff`. -/
structure MySQLMetricsDiff where
  ThreadsRunning : Int
  ThreadsConnected : Int
  QuestionsDiff : Int
  SlowQueriesDiff : Int
  LockTimeDiff : Int
  Timestamp : Rat
  ElapsedSeconds : Rat
  QPS : Rat
  SlowQPS : Rat
deriving DecidableEq

/-- `MySQLMetrics.CalculateLoad`: thread ratio capped at 1
(the Go local is named `ratio`). -/
def MySQLMetrics.CalculateLoad (m : MySQLMetrics) : Rat :=
  if m.ThreadsConnected ≤ 0 then 0
  else
    let r := (m.ThreadsRunning : Rat) / (m.ThreadsConnected : Rat)
    if r > 1 then 1 else r

/-- `MySQLMetrics.CalculateDiff`: fields not assigned in the
`previous == nil` branch keep their Go zero values. -/
def MySQLMetrics.CalculateDiff (m : MySQLMetrics)
    (previous : Option MySQLMetrics) : MySQLMetricsDiff :=
  match previous with
  | none =>
      { ThreadsRunning := m.ThreadsRunning
        ThreadsConnected := m.ThreadsConnected
        QuestionsDiff := 0
        SlowQueriesDiff := 0
        LockTimeDiff := 0
        Timestamp := m.Timestamp
        ElapsedSeconds := 0
        QPS := 0
        SlowQPS := 0 }
  | some prev =>
      let elapsed := m.Timestamp - prev.Timestamp
      let elapsed := if elapsed ≤ 0 then 1 else elapsed
      { ThreadsRunning := m.ThreadsRunning
        ThreadsConnected := m.ThreadsConnected
        QuestionsDiff := m.Questions - prev.Questions
        SlowQueriesDiff := m.SlowQueries - prev.SlowQueries
        LockTimeDiff := m.InnodbRowLockTime - prev.InnodbRowLockTime
        Timestamp := m.Timestamp
        ElapsedSeconds := elapsed
        QPS := ((m.Questions - prev.Questions : Int) : Rat) / elapsed
        SlowQPS := ((m.SlowQueries - prev.SlowQueries : Int) : Rat) / elapsed }

/-- `MySQLMetricsDiff.CalculateLoad`: composite weighted load
(Go locals `threadRatio` and `slowQueryRatio`). -/
def MySQLMetricsDiff.CalculateLoad (d : MySQLMetricsDiff) : Rat :=
  if d.ThreadsConnected ≤ 0 then 0
  else
    let threadPart :=
      let r := (d.ThreadsRunning : Rat) / (d.ThreadsConnected : Rat)
      if r > 1 then 1 else r
    let slowPart : Rat :=
      if d.QuestionsDiff > 0 then
        let r := (d.SlowQueriesDiff : Rat) / (d.QuestionsDiff : Rat)
        if r > 1 then 1 else r
      else 0
    threadPart * 0.7 + slowPart * 0.3

/-- `MySQLCollector.CollectMetrics`.  The outcome of
`collectMySQLMetrics` (DB I/O) enters as the `fetch` argument; the
collector's stored `lastMetrics` is explicit state.  On fetch error the
wrapped error is returned and `lastMetrics` is not updated. -/
def CollectMetrics (fetch : Except String MySQLMetrics)
    (lastMetrics : Option MySQLMetrics) :
    Except String Rat × Option MySQLMetrics :=
  match fetch with
  | .error err =>
      (.error ("failed to collect MySQL metrics: " ++ err), lastMetrics)
  | .ok metrics =>
      let diff := metrics.CalculateDiff lastMetrics
      (.ok diff.CalculateLoad, some metrics)

/-! ### Adaptive governor

`float64` loads/EMA values and `time.Duration` intervals (in
nanoseconds) are modelled as real numbers, because the governor's
back-off formula calls `math.Pow(2, x)` with a fractional exponent.
The `zap` logging, the `lastSnapshotTime`-driven periodic `saveState`
and the jitter PRNG of `GetCurrentInterval` touch no field modelled
here and are omitted. -/

/-- `adaptive.HighLoadThreshold`. -/
noncomputable def HighLoadThreshold : ℝ := 0.7

/-- `adaptive.CriticalLoadThreshold`. -/
noncomputable def CriticalLoadThreshold : ℝ := 0.9

/-- `adaptive.FastEMAAlpha`. -/
noncomputable def FastEMAAlpha : ℝ := 0.3

/-- `adaptive.SlowEMAAlpha`. -/
noncomputable def SlowEMAAlpha : ℝ := 0.05

/-- `adaptive.MinimumInterval` (500ms) in nanoseconds. -/
noncomputable def MinimumInterval : ℝ := 500 * 1000000

/-- `adaptive.MaximumInterval` (60s) in nanoseconds. -/
noncomputable def MaximumInterval : ℝ := 60 * 1000000000

/-- `adaptive.EMA`: alpha, current value, and the first-observation
flag. -/
structure EMA where
  alpha : ℝ
  value : ℝ
  initValue : Bool

/-- `adaptive.NewEMA`. -/
noncomputable def NewEMA (alpha : ℝ) : EMA :=
  { alpha := alpha, value := 0, initValue := false }

/-- `EMA.Update`. -/
noncomputable def EMA.Update (e : EMA) (value : ℝ) : EMA :=
  if e.initValue then
    { e with value := e.value + e.alpha * (value - e.value) }
  else
    { e with value := value, initValue := true }

/-- `EMA.Reset`. -/
noncomputable def EMA.Reset (e : EMA) : EMA :=
  { e with value := 0, initValue := false }

/-- The mutable fields of `adaptive.AdaptiveGovernor` that the claims
are about; `cbSet` records whether an `onIntervalChange` callback is
registered (`intervalChangeCb != nil`). -/
structure AdaptiveGovernor where
  baseInterval : ℝ
  fastEMA : EMA
  slowEMA : EMA
  currentInterval : ℝ
  cbSet : Bool

/-- `adaptive.NewAdaptiveGovernor` in the no-state-file case (the
constructor's `restoreState()` is a no-op when no usable state file
exists; state-file restoration is modelled separately by
`restoreStateFrom`). -/
noncomputable def NewAdaptiveGovernor (baseInterval : ℝ) (cbSet : Bool) :
    AdaptiveGovernor :=
  let base := if baseInterval < MinimumInterval then MinimumInterval
              else baseInterval
  { baseInterval := base
    fastEMA := NewEMA FastEMAAlpha
    slowEMA := NewEMA SlowEMAAlpha
    currentInterval := base
    cbSet := cbSet }

/-- `adaptive.GovernorState`: the restorable part of a state file. -/
structure GovernorState where
  FastEMAValue : ℝ
  SlowEMAValue : ℝ
  Interval : ℝ

/-- The state-applying tail of `AdaptiveGovernor.restoreState` (after
the stat/mtime/read/parse guards succeeded): `SetValue` on both EMAs
and an unclamped store of the file's interval. -/
noncomputable def restoreStateFrom (g : AdaptiveGovernor)
    (state : GovernorState) : AdaptiveGovernor :=
  { g with
    fastEMA := { g.fastEMA with value := state.FastEMAValue, initValue := true }
    slowEMA := { g.slowEMA with value := state.SlowEMAValue, initValue := true }
    currentInterval := state.Interval }

/-- The `newInterval` computation of `AdaptiveGovernor.adjustInterval`
(the Go locals are `loadRatio` and `multiplier`). -/
noncomputable def adjustNewInterval (g : AdaptiveGovernor) : ℝ :=
  let fastValue := g.fastEMA.value
  if fastValue > CriticalLoadThreshold then
    MaximumInterval
  else if fastValue > HighLoadThreshold then
    let loadFrac := fastValue / HighLoadThreshold
    let multiplier := (2 : ℝ) ^ (loadFrac - 1)
    let newInterval := g.baseInterval * multiplier
    if newInterval > MaximumInterval then MaximumInterval else newInterval
  else
    g.baseInterval

/-- `AdaptiveGovernor.adjustInterval`: returns the updated governor and
the list of `onIntervalChange` invocations it performed. -/
noncomputable def adjustInterval (g : AdaptiveGovernor) :
    AdaptiveGovernor × List ℝ :=
  let currentInterval := g.currentInterval
  let newInterval := adjustNewInterval g
  if |newInterval - currentInterval| / currentInterval > 0.1 then
    ({ g with currentInterval := newInterval },
     if g.cbSet then [newInterval] else [])
  else
    (g, [])

/-- The load-validation prologue of
`AdaptiveGovernor.ProcessLoadMetrics`: clamp to [0, 1]. -/
noncomputable def clampLoad (load : ℝ) : ℝ :=
  if load < 0 then 0 else if load > 1 then 1 else load

/-- `AdaptiveGovernor.ProcessLoadMetrics` (the periodic `saveState` at
the end touches no modelled field). -/
noncomputable def ProcessLoadMetrics (g : AdaptiveGovernor) (load : ℝ) :
    AdaptiveGovernor × List ℝ :=
  let load := clampLoad load
  let g := { g with
             fastEMA := g.fastEMA.Update load
             slowEMA := g.slowEMA.Update load }
  adjustInterval g

/-- `AdaptiveGovernor.Reset` (the best-effort state-file removal is
I/O and omitted). -/
noncomputable def Reset (g : AdaptiveGovernor) :
    AdaptiveGovernor × List ℝ :=
  ({ g with
     fastEMA := g.fastEMA.Reset
     slowEMA := g.slowEMA.Reset
     currentInterval := g.baseInterval },
   if g.cbSet then [g.baseInterval] else [])

/-- A governor operation: one `ProcessLoadMetrics` call or one `Reset`
call. -/
inductive GovOp where
  | loadMetrics (load : ℝ)
  | resetOp

/-- Run a sequence of governor operations, discarding callback events. -/
noncomputable def runGovOps (g : AdaptiveGovernor) : List GovOp → AdaptiveGovernor
  | [] => g
  | GovOp.loadMetrics x :: rest => runGovOps (ProcessLoadMetrics g x).1 rest
  | GovOp.resetOp :: rest => runGovOps (Reset g).1 rest

/-- The candidate interval exactly as the specification words it:
`fast ≤ 0.70` gives the base interval, `0.70 < fast ≤ 0.90` gives
`baseInterval · 2^((fast/0.70) − 1)` clamped to the maximum, and
`fast > 0.90` gives the maximum. -/
noncomputable def candidateSpec (base fast : ℝ) : ℝ :=
  if fast ≤ HighLoadThreshold then base
  else if fast ≤ CriticalLoadThreshold then
    min (base * (2 : ℝ) ^ (fast / HighLoadThreshold - 1)) MaximumInterval
  else MaximumInterval

/-- The interval-bounds invariant of the specification (§8, law 7),
together with the matching bounds on the stored base interval. -/
def GovernorInv (g : AdaptiveGovernor) : Prop :=
  MinimumInterval ≤ g.baseInterval ∧ g.baseInterval ≤ MaximumInterval ∧
  MinimumInterval ≤ g.currentInterval ∧ g.currentInterval ≤ MaximumInterval

end Adaptive

/-! ### Concrete inputs used by counterexamples and witnesses -/

/-- A MySQL digest row with the given key, call count, timer counter and
collection time; all other counters zero. -/
def exDigest (digest : String) (calls timer : Int) (ts : Rat) :
    Mysql.DigestData :=
  { Digest := digest
    SchemaName := "testdb"
    DigestText := "SELECT ?"
    CountStar := calls
    SumTimerWait := timer
    SumLockTime := 0
    SumErrors := 0
    SumWarnings := 0
    SumRowsAffected := 0
    SumRowsSent := 0
    SumRowsExamined := 0
    SumCreatedTmpTables := 0
    SumCreatedTmpDiskTables := 0
    SumSortRows := 0
    SumNoIndexUsed := 0
    SumNoGoodIndexUsed := 0
    Timestamp := ts }

/-- A MySQL snapshot of the given rows at the given time. -/
def exSnapM (rows : List Mysql.DigestData) (ts : Rat) : Mysql.Snapshot :=
  { Digests := rows, Timestamp := ts, InstanceID := "mysql://h:3306/testdb" }

/-- A Postgres statement row with the given key, call count, exec-time
counter and collection time; all other counters zero. -/
def exQuery (qid : String) (calls : Int) (execTime ts : Rat) :
    Postgresql.QueryData :=
  { QueryID := qid
    UserID := "10"
    DBID := "16384"
    Query := "SELECT $1"
    Calls := calls
    TotalPlanTime := 0
    TotalExecTime := execTime
    Rows := 0
    SharedBlksHit := 0
    SharedBlksRead := 0
    SharedBlksDirtied := 0
    SharedBlksWritten := 0
    LocalBlksHit := 0
    LocalBlksRead := 0
    LocalBlksDirtied := 0
    LocalBlksWritten := 0
    TempBlksRead := 0
    TempBlksWritten := 0
    BlkReadTime := 0
    BlkWriteTime := 0
    Timestamp := ts }

/-- A Postgres snapshot of the given rows at the given time. -/
def exSnapP (rows : List Postgresql.QueryData) (ts : Rat) :
    Postgresql.Snapshot :=
  { Queries := rows, Timestamp := ts, InstanceID := "postgresql://h:5432/testdb" }

/-- Scenario S2 of the specification: previous MySQL snapshot,
`{A: calls=10, timer=1000}` at t = 0. -/
def wPrevM : Mysql.Snapshot := exSnapM [exDigest "A" 10 1000 0] 0

/-- Scenario S2: current MySQL snapshot, `{A: calls=12, timer=1400}`
at t = 10. -/
def wCurrM : Mysql.Snapshot := exSnapM [exDigest "A" 12 1400 10] 10

/-- Scenario S2's expected delta record: calls delta 2, timer delta
400, over 10 seconds (the time period is written as the unreduced
difference of the snapshot times, i.e. definitionally the value
`CalculateDeltas` stores). -/
def wRecM : Mysql.DeltaResult :=
  { Digest := "A"
    SchemaName := "testdb"
    DigestText := "SELECT ?"
    TimePeriodSecs := 10 - 0
    DeltaCountStar := 2
    DeltaSumTimerWait := 400
    DeltaSumLockTime := 0
    DeltaSumErrors := 0
    DeltaSumWarnings := 0
    DeltaSumRowsAffected := 0
    DeltaSumRowsSent := 0
    DeltaSumRowsExamined := 0
    DeltaSumCreatedTmpTables := 0
    DeltaSumCreatedTmpDiskTables := 0
    DeltaSumSortRows := 0
    DeltaSumNoIndexUsed := 0
    DeltaSumNoGoodIndexUsed := 0 }

/-- Scenario S3 (counter reset), Postgres: previous snapshot
`{Q: calls=100, exec=5000}` at t = 0. -/
def wPrevP : Postgresql.Snapshot := exSnapP [exQuery "Q" 100 5000 0] 0

/-- Scenario S3, Postgres: current snapshot `{Q: calls=3, exec=120}`
at t = 10 (the server reset its counters in between). -/
def wCurrP : Postgresql.Snapshot := exSnapP [exQuery "Q" 3 120 10] 10

/-- Scenario S3's expected delta record: the reset counters are
attributed to the interval verbatim (time period unreduced, as in
`wRecM`). -/
def wRecP : Postgresql.DeltaResult :=
  { QueryID := "Q"
    UserID := "10"
    DBID := "16384"
    Query := "SELECT $1"
    TimePeriodSecs := 10 - 0
    DeltaCalls := 3
    DeltaTotalPlanTime := 0 - 0
    DeltaTotalExecTime := 120
    DeltaRows := 0
    DeltaSharedBlksHit := 0
    DeltaSharedBlksRead := 0
    DeltaSharedBlksDirtied := 0
    DeltaSharedBlksWritten := 0
    DeltaLocalBlksHit := 0
    DeltaLocalBlksRead := 0
    DeltaLocalBlksDirtied := 0
    DeltaLocalBlksWritten := 0
    DeltaTempBlksRead := 0
    DeltaTempBlksWritten := 0
    DeltaBlkReadTime := 0 - 0
    DeltaBlkWriteTime := 0 - 0 }

/-- The log record `deltaToLogs` builds from `wRecM`. -/
def wLogRecM : LogRecord :=
  { SeverityText := "INFO", Body := "SELECT ?", Attrs := Mysql.logAttrs wRecM }

/-- The resource entry `deltaToLogs` builds for `[wRecM]`. -/
def wResM : ResourceLogRec :=
  { ResourceAttrs :=
      [ ("service.name", AttrVal.str "obsidian-core")
      , ("db.system", AttrVal.str "mysql")
      , ("resource.instance.id", AttrVal.str "mysql://h:3306/testdb") ]
    ScopeName := "qanprocessor"
    Records := [wLogRecM] }

/-- A MySQL status reading with 1 running thread out of 2 connected
(the first load probe of claim C5). -/
def wMetrics : Adaptive.MySQLMetrics :=
  { ThreadsRunning := 1
    ThreadsConnected := 2
    Questions := 0
    SlowQueries := 0
    InnodbRowLockTime := 0
    Uptime := 0
    Timestamp := 0 }

/-! ## Helper lemmas (shared between the claim theorems) -/

theorem mysql_deltaForDigest_digest {prev : Mysql.Snapshot} {dt : Rat}
    {c : Mysql.DigestData} {r : Mysql.DeltaResult}
    (h : Mysql.deltaForDigest prev dt c = some r) : r.Digest = c.Digest := by
  unfold Mysql.deltaForDigest at h
  rcases hl : Mysql.lookupDigest prev.Digests c.Digest with _ | p
  · rw [hl] at h
    dsimp only at h
    obtain rfl := Option.some.inj h
    rfl
  · rw [hl] at h
    dsimp only at h
    split at h
    · obtain rfl := Option.some.inj h
      rfl
    · exact Option.noConfusion h

theorem mysql_emission_iff (prev curr : Mysql.Snapshot) (k : String) :
    (∃ r ∈ Mysql.CalculateDeltas prev curr, r.Digest = k) ↔
    (∃ e ∈ curr.Digests, e.Digest = k ∧
      (Mysql.lookupDigest prev.Digests k = none ∨
       ∃ p, Mysql.lookupDigest prev.Digests k = some p ∧
         0 < Mysql.calcDelta e.CountStar p.CountStar)) := by
  unfold Mysql.CalculateDeltas
  constructor
  · rintro ⟨r, hr, rfl⟩
    rw [List.mem_filterMap] at hr
    obtain ⟨e, he, hfe⟩ := hr
    have hd : r.Digest = e.Digest := mysql_deltaForDigest_digest hfe
    refine ⟨e, he, hd.symm, ?_⟩
    rw [hd]
    unfold Mysql.deltaForDigest at hfe
    rcases hl : Mysql.lookupDigest prev.Digests e.Digest with _ | p
    · exact Or.inl rfl
    · rw [hl] at hfe
      dsimp only at hfe
      split at hfe
      · exact Or.inr ⟨p, rfl, by assumption⟩
      · exact Option.noConfusion hfe
  · rintro ⟨e, he, rfl, hcase⟩
    rcases hcase with hl | ⟨p, hl, hpos⟩
    · obtain ⟨r, hr⟩ : ∃ r,
          Mysql.deltaForDigest prev (curr.Timestamp - prev.Timestamp) e = some r := by
        unfold Mysql.deltaForDigest
        rw [hl]
        exact ⟨_, rfl⟩
      exact ⟨r, List.mem_filterMap.mpr ⟨e, he, hr⟩, mysql_deltaForDigest_digest hr⟩
    · obtain ⟨r, hr⟩ : ∃ r,
          Mysql.deltaForDigest prev (curr.Timestamp - prev.Timestamp) e = some r := by
        unfold Mysql.deltaForDigest
        rw [hl]
        dsimp only
        rw [if_pos hpos]
        exact ⟨_, rfl⟩
      exact ⟨r, List.mem_filterMap.mpr ⟨e, he, hr⟩, mysql_deltaForDigest_digest hr⟩

theorem pg_deltaForQuery_queryid {prev : Postgresql.Snapshot} {dt : Rat}
    {c : Postgresql.QueryData} {r : Postgresql.DeltaResult}
    (h : Postgresql.deltaForQuery prev dt c = some r) : r.QueryID = c.QueryID := by
  unfold Postgresql.deltaForQuery at h
  rcases hl : Postgresql.lookupQuery prev.Queries c.QueryID with _ | p
  · rw [hl] at h
    dsimp only at h
    obtain rfl := Option.some.inj h
    rfl
  · rw [hl] at h
    dsimp only at h
    split at h
    · obtain rfl := Option.some.inj h
      rfl
    · exact Option.noConfusion h

theorem pg_emission_iff (prev curr : Postgresql.Snapshot) (k : String) :
    (∃ r ∈ Postgresql.CalculateDeltas prev curr, r.QueryID = k) ↔
    (∃ e ∈ curr.Queries, e.QueryID = k ∧
      (Postgresql.lookupQuery prev.Queries k = none ∨
       ∃ p, Postgresql.lookupQuery prev.Queries k = some p ∧
         0 < Postgresql.calcDeltaInt64 e.Calls p.Calls)) := by
  unfold Postgresql.CalculateDeltas
  constructor
  · rintro ⟨r, hr, rfl⟩
    rw [List.mem_filterMap] at hr
    obtain ⟨e, he, hfe⟩ := hr
    have hd : r.QueryID = e.QueryID := pg_deltaForQuery_queryid hfe
    refine ⟨e, he, hd.symm, ?_⟩
    rw [hd]
    unfold Postgresql.deltaForQuery at hfe
    rcases hl : Postgresql.lookupQuery prev.Queries e.QueryID with _ | p
    · exact Or.inl rfl
    · rw [hl] at hfe
      dsimp only at hfe
      split at hfe
      · exact Or.inr ⟨p, rfl, by assumption⟩
      · exact Option.noConfusion hfe
  · rintro ⟨e, he, rfl, hcase⟩
    rcases hcase with hl | ⟨p, hl, hpos⟩
    · obtain ⟨r, hr⟩ : ∃ r,
          Postgresql.deltaForQuery prev (curr.Timestamp - prev.Timestamp) e = some r := by
        unfold Postgresql.deltaForQuery
        rw [hl]
        exact ⟨_, rfl⟩
      exact ⟨r, List.mem_filterMap.mpr ⟨e, he, hr⟩, pg_deltaForQuery_queryid hr⟩
    · obtain ⟨r, hr⟩ : ∃ r,
          Postgresql.deltaForQuery prev (curr.Timestamp - prev.Timestamp) e = some r := by
        unfold Postgresql.deltaForQuery
        rw [hl]
        dsimp only
        rw [if_pos hpos]
        exact ⟨_, rfl⟩
      exact ⟨r, List.mem_filterMap.mpr ⟨e, he, hr⟩, pg_deltaForQuery_queryid hr⟩

theorem mysql_pair_record_eq (prev curr : Mysql.Snapshot)
    (hnd : (curr.Digests.map (fun d => d.Digest)).Nodup)
    {r : Mysql.DeltaResult} (hr : r ∈ Mysql.CalculateDeltas prev curr)
    {e : Mysql.DigestData} (he : e ∈ curr.Digests) (hke : e.Digest = r.Digest)
    {p : Mysql.DigestData}
    (hp : Mysql.lookupDigest prev.Digests r.Digest = some p) :
    r.DeltaCountStar = Mysql.calcDelta e.CountStar p.CountStar ∧
    r.DeltaSumTimerWait = Mysql.calcDelta e.SumTimerWait p.SumTimerWait ∧
    r.DeltaSumLockTime = Mysql.calcDelta e.SumLockTime p.SumLockTime ∧
    r.DeltaSumErrors = Mysql.calcDelta e.SumErrors p.SumErrors ∧
    r.DeltaSumWarnings = Mysql.calcDelta e.SumWarnings p.SumWarnings ∧
    r.DeltaSumRowsAffected = Mysql.calcDelta e.SumRowsAffected p.SumRowsAffected ∧
    r.DeltaSumRowsSent = Mysql.calcDelta e.SumRowsSent p.SumRowsSent ∧
    r.DeltaSumRowsExamined = Mysql.calcDelta e.SumRowsExamined p.SumRowsExamined ∧
    r.DeltaSumCreatedTmpTables = Mysql.calcDelta e.SumCreatedTmpTables p.SumCreatedTmpTables ∧
    r.DeltaSumCreatedTmpDiskTables = Mysql.calcDelta e.SumCreatedTmpDiskTables p.SumCreatedTmpDiskTables ∧
    r.DeltaSumSortRows = Mysql.calcDelta e.SumSortRows p.SumSortRows ∧
    r.DeltaSumNoIndexUsed = Mysql.calcDelta e.SumNoIndexUsed p.SumNoIndexUsed ∧
    r.DeltaSumNoGoodIndexUsed = Mysql.calcDelta e.SumNoGoodIndexUsed p.SumNoGoodIndexUsed := by
  unfold Mysql.CalculateDeltas at hr
  rw [List.mem_filterMap] at hr
  obtain ⟨a, ha, hfa⟩ := hr
  have hra : r.Digest = a.Digest := mysql_deltaForDigest_digest hfa
  have hea : e = a := List.inj_on_of_nodup_map hnd he ha (by rw [hke, hra])
  subst hea
  rw [← hke] at hp
  unfold Mysql.deltaForDigest at hfa
  rw [hp] at hfa
  dsimp only at hfa
  split at hfa
  · obtain rfl := Option.some.inj hfa
    exact ⟨rfl, rfl, rfl, rfl, rfl, rfl, rfl, rfl, rfl, rfl, rfl, rfl, rfl⟩
  · exact Option.noConfusion hfa

theorem pg_pair_record_eq (prev curr : Postgresql.Snapshot)
    (hnd : (curr.Queries.map (fun d => d.QueryID)).Nodup)
    {r : Postgresql.DeltaResult} (hr : r ∈ Postgresql.CalculateDeltas prev curr)
    {e : Postgresql.QueryData} (he : e ∈ curr.Queries) (hke : e.QueryID = r.QueryID)
    {p : Postgresql.QueryData}
    (hp : Postgresql.lookupQuery prev.Queries r.QueryID = some p) :
    r.DeltaCalls = Postgresql.calcDeltaInt64 e.Calls p.Calls ∧
    r.DeltaTotalPlanTime = Postgresql.calcDeltaFloat64 e.TotalPlanTime p.TotalPlanTime ∧
    r.DeltaTotalExecTime = Postgresql.calcDeltaFloat64 e.TotalExecTime p.TotalExecTime ∧
    r.DeltaRows = Postgresql.calcDeltaInt64 e.Rows p.Rows ∧
    r.DeltaSharedBlksHit = Postgresql.calcDeltaInt64 e.SharedBlksHit p.SharedBlksHit ∧
    r.DeltaSharedBlksRead = Postgresql.calcDeltaInt64 e.SharedBlksRead p.SharedBlksRead ∧
    r.DeltaSharedBlksDirtied = Postgresql.calcDeltaInt64 e.SharedBlksDirtied p.SharedBlksDirtied ∧
    r.DeltaSharedBlksWritten = Postgresql.calcDeltaInt64 e.SharedBlksWritten p.SharedBlksWritten ∧
    r.DeltaLocalBlksHit = Postgresql.calcDeltaInt64 e.LocalBlksHit p.LocalBlksHit ∧
    r.DeltaLocalBlksRead = Postgresql.calcDeltaInt64 e.LocalBlksRead p.LocalBlksRead ∧
    r.DeltaLocalBlksDirtied = Postgresql.calcDeltaInt64 e.LocalBlksDirtied p.LocalBlksDirtied ∧
    r.DeltaLocalBlksWritten = Postgresql.calcDeltaInt64 e.LocalBlksWritten p.LocalBlksWritten ∧
    r.DeltaTempBlksRead = Postgresql.calcDeltaInt64 e.TempBlksRead p.TempBlksRead ∧
    r.DeltaTempBlksWritten = Postgresql.calcDeltaInt64 e.TempBlksWritten p.TempBlksWritten ∧
    r.DeltaBlkReadTime = Postgresql.calcDeltaFloat64 e.BlkReadTime p.BlkReadTime ∧
    r.DeltaBlkWriteTime = Postgresql.calcDeltaFloat64 e.BlkWriteTime p.BlkWriteTime := by
  unfold Postgresql.CalculateDeltas at hr
  rw [List.mem_filterMap] at hr
  obtain ⟨a, ha, hfa⟩ := hr
  have hra : r.QueryID = a.QueryID := pg_deltaForQuery_queryid hfa
  have hea : e = a := List.inj_on_of_nodup_map hnd he ha (by rw [hke, hra])
  subst hea
  rw [← hke] at hp
  unfold Postgresql.deltaForQuery at hfa
  rw [hp] at hfa
  dsimp only at hfa
  split at hfa
  · obtain rfl := Option.some.inj hfa
    exact ⟨rfl, rfl, rfl, rfl, rfl, rfl, rfl, rfl, rfl, rfl, rfl, rfl, rfl, rfl, rfl, rfl⟩
  · exact Option.noConfusion hfa

theorem mysql_calcDelta_nonneg (c p : Int) (hc : 0 ≤ c) :
    0 ≤ Mysql.calcDelta c p := by
  unfold Mysql.calcDelta
  split <;> omega

theorem pg_calcDeltaInt64_nonneg (c p : Int) (hc : 0 ≤ c) :
    0 ≤ Postgresql.calcDeltaInt64 c p := by
  unfold Postgresql.calcDeltaInt64
  split <;> omega

theorem pg_calcDeltaFloat64_nonneg (c p : Rat) (hc : 0 ≤ c) :
    0 ≤ Postgresql.calcDeltaFloat64 c p := by
  unfold Postgresql.calcDeltaFloat64
  split <;> linarith

theorem mysql_deltas_nonneg (prev curr : Mysql.Snapshot)
    (hc : ∀ e ∈ curr.Digests, Mysql.NonnegCounters e) :
    ∀ r ∈ Mysql.CalculateDeltas prev curr, Mysql.NonnegDeltas r := by
  intro r hr
  unfold Mysql.CalculateDeltas at hr
  rw [List.mem_filterMap] at hr
  obtain ⟨e, he, hfe⟩ := hr
  obtain ⟨h1, h2, h3, h4, h5, h6, h7, h8, h9, h10, h11, h12, h13⟩ := hc e he
  unfold Mysql.deltaForDigest at hfe
  rcases hl : Mysql.lookupDigest prev.Digests e.Digest with _ | p <;>
    rw [hl] at hfe <;> dsimp only at hfe
  · obtain rfl := Option.some.inj hfe
    exact ⟨h1, h2, h3, h4, h5, h6, h7, h8, h9, h10, h11, h12, h13⟩
  · split at hfe
    · obtain rfl := Option.some.inj hfe
      exact ⟨mysql_calcDelta_nonneg _ _ h1, mysql_calcDelta_nonneg _ _ h2,
        mysql_calcDelta_nonneg _ _ h3, mysql_calcDelta_nonneg _ _ h4,
        mysql_calcDelta_nonneg _ _ h5, mysql_calcDelta_nonneg _ _ h6,
        mysql_calcDelta_nonneg _ _ h7, mysql_calcDelta_nonneg _ _ h8,
        mysql_calcDelta_nonneg _ _ h9, mysql_calcDelta_nonneg _ _ h10,
        mysql_calcDelta_nonneg _ _ h11, mysql_calcDelta_nonneg _ _ h12,
        mysql_calcDelta_nonneg _ _ h13⟩
    · exact Option.noConfusion hfe

theorem pg_deltas_nonneg (prev curr : Postgresql.Snapshot)
    (hc : ∀ e ∈ curr.Queries, Postgresql.NonnegCounters e) :
    ∀ r ∈ Postgresql.CalculateDeltas prev curr, Postgresql.NonnegDeltas r := by
  intro r hr
  unfold Postgresql.CalculateDeltas at hr
  rw [List.mem_filterMap] at hr
  obtain ⟨e, he, hfe⟩ := hr
  obtain ⟨h1, h2, h3, h4, h5, h6, h7, h8, h9, h10, h11, h12, h13, h14, h15, h16⟩ := hc e he
  unfold Postgresql.deltaForQuery at hfe
  rcases hl : Postgresql.lookupQuery prev.Queries e.QueryID with _ | p <;>
    rw [hl] at hfe <;> dsimp only at hfe
  · obtain rfl := Option.some.inj hfe
    exact ⟨h1, h2, h3, h4, h5, h6, h7, h8, h9, h10, h11, h12, h13, h14, h15, h16⟩
  · split at hfe
    · obtain rfl := Option.some.inj hfe
      exact ⟨pg_calcDeltaInt64_nonneg _ _ h1, pg_calcDeltaFloat64_nonneg _ _ h2,
        pg_calcDeltaFloat64_nonneg _ _ h3, pg_calcDeltaInt64_nonneg _ _ h4,
        pg_calcDeltaInt64_nonneg _ _ h5, pg_calcDeltaInt64_nonneg _ _ h6,
        pg_calcDeltaInt64_nonneg _ _ h7, pg_calcDeltaInt64_nonneg _ _ h8,
        pg_calcDeltaInt64_nonneg _ _ h9, pg_calcDeltaInt64_nonneg _ _ h10,
        pg_calcDeltaInt64_nonneg _ _ h11, pg_calcDeltaInt64_nonneg _ _ h12,
        pg_calcDeltaInt64_nonneg _ _ h13, pg_calcDeltaInt64_nonneg _ _ h14,
        pg_calcDeltaFloat64_nonneg _ _ h15, pg_calcDeltaFloat64_nonneg _ _ h16⟩
    · exact Option.noConfusion hfe

theorem mysql_logRecord_calls {d : Mysql.DeltaResult} {rec : LogRecord}
    (h : Mysql.logRecordForDelta d = some rec) :
    List.lookup "db.query.calls.delta" rec.Attrs
      = some (AttrVal.int d.DeltaCountStar) ∧ 0 < d.DeltaCountStar := by
  unfold Mysql.logRecordForDelta at h
  split at h
  · exact Option.noConfusion h
  · obtain rfl := Option.some.inj h
    refine ⟨?_, by omega⟩
    unfold Mysql.logAttrs
    rfl

theorem pg_logRecord_calls {d : Postgresql.DeltaResult} {rec : LogRecord}
    (h : Postgresql.logRecordForDelta d = some rec) :
    List.lookup "db.query.calls.delta" rec.Attrs
      = some (AttrVal.int d.DeltaCalls) ∧ 0 < d.DeltaCalls := by
  unfold Postgresql.logRecordForDelta at h
  split at h
  · exact Option.noConfusion h
  · obtain rfl := Option.some.inj h
    refine ⟨?_, by omega⟩
    unfold Postgresql.logAttrs
    rfl

theorem mysql_logs_calls_positive (instanceID : String)
    (deltas : List Mysql.DeltaResult) :
    ∀ res ∈ Mysql.deltaToLogs instanceID deltas, ∀ rec ∈ res.Records,
      ∃ v, List.lookup "db.query.calls.delta" rec.Attrs
             = some (AttrVal.int v) ∧ 0 < v := by
  intro res hres rec hrec
  unfold Mysql.deltaToLogs at hres
  split at hres
  · exact absurd hres (List.not_mem_nil _)
  · obtain rfl := List.mem_singleton.mp hres
    rw [List.mem_filterMap] at hrec
    obtain ⟨d, _, hfd⟩ := hrec
    obtain ⟨hlk, hpos⟩ := mysql_logRecord_calls hfd
    exact ⟨d.DeltaCountStar, hlk, hpos⟩

theorem pg_logs_calls_positive (instanceID : String)
    (deltas : List Postgresql.DeltaResult) :
    ∀ res ∈ Postgresql.deltaToLogs instanceID deltas, ∀ rec ∈ res.Records,
      ∃ v, List.lookup "db.query.calls.delta" rec.Attrs
             = some (AttrVal.int v) ∧ 0 < v := by
  intro res hres rec hrec
  unfold Postgresql.deltaToLogs at hres
  split at hres
  · exact absurd hres (List.not_mem_nil _)
  · obtain rfl := List.mem_singleton.mp hres
    rw [List.mem_filterMap] at hrec
    obtain ⟨d, _, hfd⟩ := hrec
    obtain ⟨hlk, hpos⟩ := pg_logRecord_calls hfd
    exact ⟨d.DeltaCalls, hlk, hpos⟩

theorem adjustNewInterval_eq_candidateSpec (g : Adaptive.AdaptiveGovernor) :
    Adaptive.adjustNewInterval g
      = Adaptive.candidateSpec g.baseInterval g.fastEMA.value := by
  unfold Adaptive.adjustNewInterval Adaptive.candidateSpec
  by_cases h9 : g.fastEMA.value > Adaptive.CriticalLoadThreshold
  · have h7 : ¬ g.fastEMA.value ≤ Adaptive.HighLoadThreshold := by
      unfold Adaptive.HighLoadThreshold Adaptive.CriticalLoadThreshold at *
      linarith
    rw [if_pos h9, if_neg h7, if_neg (not_le.mpr h9)]
  · rw [if_neg h9]
    by_cases h7 : g.fastEMA.value > Adaptive.HighLoadThreshold
    · rw [if_pos h7, if_neg (not_le.mpr h7), if_pos (not_lt.mp h9)]
      dsimp only
      rcases le_or_lt
          (g.baseInterval * (2 : ℝ) ^ (g.fastEMA.value / Adaptive.HighLoadThreshold - 1))
          Adaptive.MaximumInterval with hle | hgt
      · rw [if_neg (not_lt.mpr hle), min_eq_left hle]
      · rw [if_pos hgt, min_eq_right hgt.le]
    · rw [if_neg h7, if_pos (not_lt.mp h7)]

theorem adjustNewInterval_bounds (g : Adaptive.AdaptiveGovernor)
    (hb1 : Adaptive.MinimumInterval ≤ g.baseInterval)
    (hb2 : g.baseInterval ≤ Adaptive.MaximumInterval) :
    Adaptive.MinimumInterval ≤ Adaptive.adjustNewInterval g ∧
    Adaptive.adjustNewInterval g ≤ Adaptive.MaximumInterval := by
  have hmm : Adaptive.MinimumInterval ≤ Adaptive.MaximumInterval := by
    unfold Adaptive.MinimumInterval Adaptive.MaximumInterval
    norm_num
  unfold Adaptive.adjustNewInterval
  by_cases h9 : g.fastEMA.value > Adaptive.CriticalLoadThreshold
  · rw [if_pos h9]
    exact ⟨hmm, le_refl _⟩
  · rw [if_neg h9]
    by_cases h7 : g.fastEMA.value > Adaptive.HighLoadThreshold
    · rw [if_pos h7]
      dsimp only
      rcases lt_or_le Adaptive.MaximumInterval
          (g.baseInterval * (2 : ℝ) ^ (g.fastEMA.value / Adaptive.HighLoadThreshold - 1))
          with hgt | hle
      · rw [if_pos hgt]
        exact ⟨hmm, le_refl _⟩
      · rw [if_neg (not_lt.mpr hle)]
        have hone : (1 : ℝ) ≤ (2 : ℝ) ^ (g.fastEMA.value / Adaptive.HighLoadThreshold - 1) := by
          have hfrac : (1 : ℝ) < g.fastEMA.value / Adaptive.HighLoadThreshold := by
            rw [lt_div_iff₀ (by unfold Adaptive.HighLoadThreshold; norm_num)]
            unfold Adaptive.HighLoadThreshold at *
            linarith
          calc (1 : ℝ) = (2 : ℝ) ^ (0 : ℝ) := (Real.rpow_zero 2).symm
            _ ≤ (2 : ℝ) ^ (g.fastEMA.value / Adaptive.HighLoadThreshold - 1) :=
                Real.rpow_le_rpow_of_exponent_le (by norm_num) (by linarith)
        have hbase : g.baseInterval
            ≤ g.baseInterval * (2 : ℝ) ^ (g.fastEMA.value / Adaptive.HighLoadThreshold - 1) := by
          have h0 : (0 : ℝ) ≤ g.baseInterval := by
            have : (0 : ℝ) ≤ Adaptive.MinimumInterval := by
              unfold Adaptive.MinimumInterval
              norm_num
            linarith
          nlinarith
        exact ⟨le_trans hb1 hbase, hle⟩
    · rw [if_neg h7]
      exact ⟨hb1, hb2⟩

theorem adjustInterval_inv (g : Adaptive.AdaptiveGovernor)
    (h : Adaptive.GovernorInv g) :
    Adaptive.GovernorInv (Adaptive.adjustInterval g).1 := by
  obtain ⟨h1, h2, h3, h4⟩ := h
  unfold Adaptive.adjustInterval
  dsimp only
  split
  · exact ⟨h1, h2, (adjustNewInterval_bounds g h1 h2).1,
      (adjustNewInterval_bounds g h1 h2).2⟩
  · exact ⟨h1, h2, h3, h4⟩

theorem processLoadMetrics_inv (g : Adaptive.AdaptiveGovernor) (load : ℝ)
    (h : Adaptive.GovernorInv g) :
    Adaptive.GovernorInv (Adaptive.ProcessLoadMetrics g load).1 := by
  obtain ⟨h1, h2, h3, h4⟩ := h
  unfold Adaptive.ProcessLoadMetrics
  dsimp only
  exact adjustInterval_inv _ ⟨h1, h2, h3, h4⟩

theorem reset_inv (g : Adaptive.AdaptiveGovernor)
    (h : Adaptive.GovernorInv g) :
    Adaptive.GovernorInv (Adaptive.Reset g).1 := by
  obtain ⟨h1, h2, h3, h4⟩ := h
  exact ⟨h1, h2, h1, h2⟩

theorem runGovOps_inv (ops : List Adaptive.GovOp) :
    ∀ g : Adaptive.AdaptiveGovernor, Adaptive.GovernorInv g →
      Adaptive.GovernorInv (Adaptive.runGovOps g ops) := by
  induction ops with
  | nil => exact fun g h => h
  | cons op rest ih =>
      intro g h
      cases op with
      | loadMetrics x => exact ih _ (processLoadMetrics_inv g x h)
      | resetOp => exact ih _ (reset_inv g h)

theorem newGovernor_inv (baseInterval : ℝ) (cb : Bool)
    (hb : baseInterval ≤ Adaptive.MaximumInterval) :
    Adaptive.GovernorInv (Adaptive.NewAdaptiveGovernor baseInterval cb) := by
  have hmm : Adaptive.MinimumInterval ≤ Adaptive.MaximumInterval := by
    unfold Adaptive.MinimumInterval Adaptive.MaximumInterval
    norm_num
  unfold Adaptive.NewAdaptiveGovernor Adaptive.GovernorInv
  dsimp only
  split
  · exact ⟨le_refl _, hmm, le_refl _, hmm⟩
  · exact ⟨not_lt.mp (by assumption), hb, not_lt.mp (by assumption), hb⟩

/-! ## Claim theorems -/

/-- Claim C1 (counterexample): a key that is present in `curr` but not
in `prev` is emitted even with zero execution activity — both
`CalculateDeltas` variants return a record whose calls delta is 0 for
it, contradicting the claimed emission filter. -/
theorem claim1_counterexample :
    (Mysql.CalculateDeltas (exSnapM [] 0) (exSnapM [exDigest "B" 0 0 10] 10)).map
        (fun r => r.DeltaCountStar) = [0] ∧
    (Postgresql.CalculateDeltas (exSnapP [] 0) (exSnapP [exQuery "B" 0 0 10] 10)).map
        (fun r => r.DeltaCalls) = [0] ∧
    ¬ ((0 : Int) > 0) := by
  refine ⟨rfl, rfl, by norm_num⟩

/-- Claim C1 (amended): both `CalculateDeltas` variants return a record
for key `k` iff `k` is present in `curr` and either `k` is absent from
`prev` (a new key is always emitted, its deltas copied from the current
counters, even when its calls delta is 0) or the reset-aware calls
delta against the previous row is strictly positive. -/
theorem claim1_emission_characterization :
    (∀ (prev curr : Mysql.Snapshot) (k : String),
      (∃ r ∈ Mysql.CalculateDeltas prev curr, r.Digest = k) ↔
      (∃ e ∈ curr.Digests, e.Digest = k ∧
        (Mysql.lookupDigest prev.Digests k = none ∨
         ∃ p, Mysql.lookupDigest prev.Digests k = some p ∧
           0 < Mysql.calcDelta e.CountStar p.CountStar))) ∧
    (∀ (prev curr : Postgresql.Snapshot) (k : String),
      (∃ r ∈ Postgresql.CalculateDeltas prev curr, r.QueryID = k) ↔
      (∃ e ∈ curr.Queries, e.QueryID = k ∧
        (Postgresql.lookupQuery prev.Queries k = none ∨
         ∃ p, Postgresql.lookupQuery prev.Queries k = some p ∧
           0 < Postgresql.calcDeltaInt64 e.Calls p.Calls))) :=
  ⟨mysql_emission_iff, pg_emission_iff⟩

/-- Claim C2: for a key present in both snapshots whose record is
emitted, every emitted counter delta is the reset-aware subtraction of
the current against the previous counter (`curr − prev` when
`curr ≥ prev`, else `curr`), identically for integer and fractional
counters; `curr.Digests`/`curr.Queries` carries unique keys (the §3
snapshot invariant, automatic for a Go map). -/
theorem claim2_reset_aware_subtraction :
    (∀ (prev curr : Mysql.Snapshot),
      (curr.Digests.map (fun d => d.Digest)).Nodup →
      ∀ r ∈ Mysql.CalculateDeltas prev curr, ∀ e ∈ curr.Digests,
        e.Digest = r.Digest →
        ∀ p, Mysql.lookupDigest prev.Digests r.Digest = some p →
          r.DeltaCountStar = Mysql.calcDelta e.CountStar p.CountStar ∧
          r.DeltaSumTimerWait = Mysql.calcDelta e.SumTimerWait p.SumTimerWait ∧
          r.DeltaSumLockTime = Mysql.calcDelta e.SumLockTime p.SumLockTime ∧
          r.DeltaSumErrors = Mysql.calcDelta e.SumErrors p.SumErrors ∧
          r.DeltaSumWarnings = Mysql.calcDelta e.SumWarnings p.SumWarnings ∧
          r.DeltaSumRowsAffected = Mysql.calcDelta e.SumRowsAffected p.SumRowsAffected ∧
          r.DeltaSumRowsSent = Mysql.calcDelta e.SumRowsSent p.SumRowsSent ∧
          r.DeltaSumRowsExamined = Mysql.calcDelta e.SumRowsExamined p.SumRowsExamined ∧
          r.DeltaSumCreatedTmpTables = Mysql.calcDelta e.SumCreatedTmpTables p.SumCreatedTmpTables ∧
          r.DeltaSumCreatedTmpDiskTables = Mysql.calcDelta e.SumCreatedTmpDiskTables p.SumCreatedTmpDiskTables ∧
          r.DeltaSumSortRows = Mysql.calcDelta e.SumSortRows p.SumSortRows ∧
          r.DeltaSumNoIndexUsed = Mysql.calcDelta e.SumNoIndexUsed p.SumNoIndexUsed ∧
          r.DeltaSumNoGoodIndexUsed = Mysql.calcDelta e.SumNoGoodIndexUsed p.SumNoGoodIndexUsed) ∧
    (∀ (prev curr : Postgresql.Snapshot),
      (curr.Queries.map (fun d => d.QueryID)).Nodup →
      ∀ r ∈ Postgresql.CalculateDeltas prev curr, ∀ e ∈ curr.Queries,
        e.QueryID = r.QueryID →
        ∀ p, Postgresql.lookupQuery prev.Queries r.QueryID = some p →
          r.DeltaCalls = Postgresql.calcDeltaInt64 e.Calls p.Calls ∧
          r.DeltaTotalPlanTime = Postgresql.calcDeltaFloat64 e.TotalPlanTime p.TotalPlanTime ∧
          r.DeltaTotalExecTime = Postgresql.calcDeltaFloat64 e.TotalExecTime p.TotalExecTime ∧
          r.DeltaRows = Postgresql.calcDeltaInt64 e.Rows p.Rows ∧
          r.DeltaSharedBlksHit = Postgresql.calcDeltaInt64 e.SharedBlksHit p.SharedBlksHit ∧
          r.DeltaSharedBlksRead = Postgresql.calcDeltaInt64 e.SharedBlksRead p.SharedBlksRead ∧
          r.DeltaSharedBlksDirtied = Postgresql.calcDeltaInt64 e.SharedBlksDirtied p.SharedBlksDirtied ∧
          r.DeltaSharedBlksWritten = Postgresql.calcDeltaInt64 e.SharedBlksWritten p.SharedBlksWritten ∧
          r.DeltaLocalBlksHit = Postgresql.calcDeltaInt64 e.LocalBlksHit p.LocalBlksHit ∧
          r.DeltaLocalBlksRead = Postgresql.calcDeltaInt64 e.LocalBlksRead p.LocalBlksRead ∧
          r.DeltaLocalBlksDirtied = Postgresql.calcDeltaInt64 e.LocalBlksDirtied p.LocalBlksDirtied ∧
          r.DeltaLocalBlksWritten = Postgresql.calcDeltaInt64 e.LocalBlksWritten p.LocalBlksWritten ∧
          r.DeltaTempBlksRead = Postgresql.calcDeltaInt64 e.TempBlksRead p.TempBlksRead ∧
          r.DeltaTempBlksWritten = Postgresql.calcDeltaInt64 e.TempBlksWritten p.TempBlksWritten ∧
          r.DeltaBlkReadTime = Postgresql.calcDeltaFloat64 e.BlkReadTime p.BlkReadTime ∧
          r.DeltaBlkWriteTime = Postgresql.calcDeltaFloat64 e.BlkWriteTime p.BlkWriteTime) :=
  ⟨fun prev curr hnd _r hr _e he hke _p hp =>
      mysql_pair_record_eq prev curr hnd hr he hke hp,
   fun prev curr hnd _r hr _e he hke _p hp =>
      pg_pair_record_eq prev curr hnd hr he hke hp⟩

/-- Witness for claim C2, on the specification's scenarios S2 (MySQL
advance: calls 10→12, timer 1000→1400) and S3 (Postgres reset: calls
100→3, exec time 5000→120). -/
theorem claim2_witness :
    ((wCurrM.Digests.map (fun d => d.Digest)).Nodup ∧
      wRecM ∈ Mysql.CalculateDeltas wPrevM wCurrM ∧
      Mysql.lookupDigest wPrevM.Digests wRecM.Digest = some (exDigest "A" 10 1000 0) ∧
      Postgresql.lookupQuery wPrevP.Queries wRecP.QueryID = some (exQuery "Q" 100 5000 0)) ∧
    (wRecM.DeltaCountStar = Mysql.calcDelta 12 10 ∧
     wRecM.DeltaSumTimerWait = Mysql.calcDelta 1400 1000) ∧
    (wRecP.DeltaCalls = Postgresql.calcDeltaInt64 3 100 ∧
     wRecP.DeltaTotalExecTime = Postgresql.calcDeltaFloat64 120 5000) :=
  ⟨⟨by decide, List.mem_singleton_self _, rfl, rfl⟩,
   ⟨(claim2_reset_aware_subtraction.1 wPrevM wCurrM (by decide) wRecM
       (List.mem_singleton_self _) (exDigest "A" 12 1400 10)
       (List.mem_singleton_self _) rfl (exDigest "A" 10 1000 0) rfl).1,
    (claim2_reset_aware_subtraction.1 wPrevM wCurrM (by decide) wRecM
       (List.mem_singleton_self _) (exDigest "A" 12 1400 10)
       (List.mem_singleton_self _) rfl (exDigest "A" 10 1000 0) rfl).2.1⟩,
   ⟨(claim2_reset_aware_subtraction.2 wPrevP wCurrP (by decide) wRecP
       (List.mem_singleton_self _) (exQuery "Q" 3 120 10)
       (List.mem_singleton_self _) rfl (exQuery "Q" 100 5000 0) rfl).1,
    (claim2_reset_aware_subtraction.2 wPrevP wCurrP (by decide) wRecP
       (List.mem_singleton_self _) (exQuery "Q" 3 120 10)
       (List.mem_singleton_self _) rfl (exQuery "Q" 100 5000 0) rfl).2.2.1⟩⟩

/-- Claim C9: for snapshots whose rows satisfy the §3 data-model
invariant (all monotonic counters non-negative), every counter delta of
every record emitted by either `CalculateDeltas` variant is
non-negative. -/
theorem claim9_delta_nonneg :
    (∀ (prev curr : Mysql.Snapshot),
      (∀ e ∈ curr.Digests, Mysql.NonnegCounters e) →
      ∀ r ∈ Mysql.CalculateDeltas prev curr, Mysql.NonnegDeltas r) ∧
    (∀ (prev curr : Postgresql.Snapshot),
      (∀ e ∈ curr.Queries, Postgresql.NonnegCounters e) →
      ∀ r ∈ Postgresql.CalculateDeltas prev curr, Postgresql.NonnegDeltas r) :=
  ⟨mysql_deltas_nonneg, pg_deltas_nonneg⟩

/-- Witness for claim C9, on scenarios S2 (MySQL) and S3 (Postgres
reset). -/
theorem claim9_witness :
    ((∀ e ∈ wCurrM.Digests, Mysql.NonnegCounters e) ∧
     (∀ e ∈ wCurrP.Queries, Postgresql.NonnegCounters e)) ∧
    Mysql.NonnegDeltas wRecM ∧ Postgresql.NonnegDeltas wRecP :=
  ⟨⟨by decide, by decide⟩,
   claim9_delta_nonneg.1 wPrevM wCurrM (by decide) wRecM (List.mem_singleton_self _),
   claim9_delta_nonneg.2 wPrevP wCurrP (by decide) wRecP (List.mem_singleton_self _)⟩

/-- Claim C10: every log record either `deltaToLogs` builds carries a
strictly positive `db.query.calls.delta` attribute — the builder skips
any delta result with a non-positive calls delta, whatever the input
list contains. -/
theorem claim10_logs_calls_delta_positive :
    (∀ (instanceID : String) (deltas : List Mysql.DeltaResult),
      ∀ res ∈ Mysql.deltaToLogs instanceID deltas, ∀ rec ∈ res.Records,
        ∃ v, List.lookup "db.query.calls.delta" rec.Attrs
               = some (AttrVal.int v) ∧ 0 < v) ∧
    (∀ (instanceID : String) (deltas : List Postgresql.DeltaResult),
      ∀ res ∈ Postgresql.deltaToLogs instanceID deltas, ∀ rec ∈ res.Records,
        ∃ v, List.lookup "db.query.calls.delta" rec.Attrs
               = some (AttrVal.int v) ∧ 0 < v) :=
  ⟨mysql_logs_calls_positive, pg_logs_calls_positive⟩

/-- Witness for claim C10: the batch built from scenario S2's delta
record. -/
theorem claim10_witness :
    (wResM ∈ Mysql.deltaToLogs "mysql://h:3306/testdb" [wRecM] ∧
     wLogRecM ∈ wResM.Records) ∧
    (∃ v, List.lookup "db.query.calls.delta" wLogRecM.Attrs
            = some (AttrVal.int v) ∧ 0 < v) :=
  ⟨⟨List.mem_singleton_self _, List.mem_singleton_self _⟩,
   claim10_logs_calls_delta_positive.1 "mysql://h:3306/testdb" [wRecM]
     wResM (List.mem_singleton_self _) wLogRecM (List.mem_singleton_self _)⟩

/-- Claim C8: when the per-call snapshot collection fails, `Collect`
(both variants) returns that error unchanged and leaves the snapshot
store untouched, so a subsequent `GetSnapshot` sees the snapshot stored
before the failing call. -/
theorem claim8_error_leaves_store :
    ∀ (instanceID err : String),
      (∀ store : Mysql.SnapshotStore,
        Mysql.Collect instanceID (.error err) store = (.error err, store) ∧
        Mysql.GetSnapshot (Mysql.Collect instanceID (.error err) store).2 instanceID
          = Mysql.GetSnapshot store instanceID) ∧
      (∀ store : Postgresql.SnapshotStore,
        Postgresql.Collect instanceID (.error err) store = (.error err, store) ∧
        Postgresql.GetSnapshot (Postgresql.Collect instanceID (.error err) store).2 instanceID
          = Postgresql.GetSnapshot store instanceID) :=
  fun _ _ => ⟨fun _ => ⟨rfl, rfl⟩, fun _ => ⟨rfl, rfl⟩⟩

/-- Claim C4 (evaluation at the failing input): with
`curr.Timestamp = prev.Timestamp` (dt = 0) and an advancing calls
counter, both `CalculateDeltas` variants still emit a record, but its
`TimePeriodSecs` is the raw `dt` (here 0), not the claimed substitute
1.0 — the `intervalSecs <= 0` substitution in the Go sources is
computed in `collectQANMetrics` and then dropped, never reaching
`CalculateDeltas`. -/
theorem claim4_zero_dt_divergence :
    ((Mysql.CalculateDeltas (exSnapM [exDigest "A" 3 1000 100] 100)
        (exSnapM [exDigest "A" 5 1400 100] 100)).map
          (fun r => r.TimePeriodSecs) = [0]) ∧
    ((Postgresql.CalculateDeltas (exSnapP [exQuery "Q" 3 50 100] 100)
        (exSnapP [exQuery "Q" 5 80 100] 100)).map
          (fun r => r.TimePeriodSecs) = [0]) ∧
    (0 : Rat) ≠ 1 := by
  refine ⟨?_, ?_, by norm_num⟩
  · show [(100 : Rat) - 100] = [0]
    norm_num
  · show [(100 : Rat) - 100] = [0]
    norm_num

/-- Claim C5 (counterexample): on the first load probe (no prior
reading), with `Threads_running = 1`, `Threads_connected = 2`,
`CollectMetrics` returns 0.35, not the claimed plain ratio 0.5 — the
first probe goes through `MySQLMetricsDiff.CalculateLoad`, which
weights the thread ratio by 0.7. -/
theorem claim5_counterexample :
    (Adaptive.CollectMetrics (.ok wMetrics) none).1 = .ok (7 / 20) ∧
    (7 / 20 : Rat) ≠ 1 / 2 := by
  constructor
  · unfold Adaptive.CollectMetrics Adaptive.MySQLMetrics.CalculateDiff
      Adaptive.MySQLMetricsDiff.CalculateLoad wMetrics
    norm_num
  · norm_num

/-- Claim C5 (amended): on the first load probe the load returned by
`CollectMetrics` is `0.7 · min(1, Threads_running/Threads_connected)`
(0 when `Threads_connected ≤ 0`): the slow-query component of the
composite load is 0 because the first diff has `QuestionsDiff = 0`.
The fetched reading is stored as the new previous reading. -/
theorem claim5_first_probe_load (m : Adaptive.MySQLMetrics) :
    (Adaptive.CollectMetrics (.ok m) none).1
      = .ok (if m.ThreadsConnected ≤ 0 then 0
             else 0.7 * min 1 ((m.ThreadsRunning : Rat) / (m.ThreadsConnected : Rat))) ∧
    (Adaptive.CollectMetrics (.ok m) none).2 = some m := by
  refine ⟨?_, rfl⟩
  unfold Adaptive.CollectMetrics Adaptive.MySQLMetrics.CalculateDiff
    Adaptive.MySQLMetricsDiff.CalculateLoad
  dsimp only
  congr 1
  by_cases hc : m.ThreadsConnected ≤ 0
  · rw [if_pos hc, if_pos hc]
  · rw [if_neg hc, if_neg hc]
    rw [if_neg (by norm_num : ¬ ((0 : Int) > 0))]
    by_cases hr : (m.ThreadsRunning : Rat) / (m.ThreadsConnected : Rat) > 1
    · rw [if_pos hr, min_eq_left hr.le]
      ring
    · rw [if_neg hr, min_eq_right (not_lt.mp hr)]
      ring

/-- Claim C3 (counterexample): `NewAdaptiveGovernor` does not clamp the
base interval from above — constructed with a 120 s base interval (and
no restorable state), `currentInterval` is 120 s, strictly above
`MAX_INTERVAL = 60 s`. -/
theorem claim3_counterexample :
    (Adaptive.NewAdaptiveGovernor (120 * 1000000000) false).currentInterval
      = 120 * 1000000000 ∧
    Adaptive.MaximumInterval
      < (Adaptive.NewAdaptiveGovernor (120 * 1000000000) false).currentInterval := by
  unfold Adaptive.NewAdaptiveGovernor Adaptive.MaximumInterval Adaptive.MinimumInterval
  norm_num

/-- Claim C3 (amended): the constructor clamps `baseInterval` below by
`MIN_INTERVAL` only; provided additionally `baseInterval ≤ MAX_INTERVAL`
and no state-file restore takes place, every sequence of
`ProcessLoadMetrics` and `Reset` operations keeps
`MIN_INTERVAL ≤ currentInterval ≤ MAX_INTERVAL` (`restoreState` would
store the file's interval unclamped). -/
theorem claim3_interval_bounds (baseInterval : ℝ) (cb : Bool)
    (ops : List Adaptive.GovOp)
    (hb : baseInterval ≤ Adaptive.MaximumInterval) :
    Adaptive.MinimumInterval
        ≤ (Adaptive.runGovOps (Adaptive.NewAdaptiveGovernor baseInterval cb) ops).currentInterval ∧
    (Adaptive.runGovOps (Adaptive.NewAdaptiveGovernor baseInterval cb) ops).currentInterval
        ≤ Adaptive.MaximumInterval := by
  have h := runGovOps_inv ops _ (newGovernor_inv baseInterval cb hb)
  exact ⟨h.2.2.1, h.2.2.2⟩

/-- Witness for claim C3: a 1 s base interval, one full-load update and
one reset. -/
theorem claim3_witness :
    (1000000000 : ℝ) ≤ Adaptive.MaximumInterval ∧
    (Adaptive.MinimumInterval
        ≤ (Adaptive.runGovOps (Adaptive.NewAdaptiveGovernor 1000000000 true)
            [Adaptive.GovOp.loadMetrics 1, Adaptive.GovOp.resetOp]).currentInterval ∧
     (Adaptive.runGovOps (Adaptive.NewAdaptiveGovernor 1000000000 true)
         [Adaptive.GovOp.loadMetrics 1, Adaptive.GovOp.resetOp]).currentInterval
        ≤ Adaptive.MaximumInterval) :=
  ⟨by unfold Adaptive.MaximumInterval; norm_num,
   claim3_interval_bounds 1000000000 true
     [Adaptive.GovOp.loadMetrics 1, Adaptive.GovOp.resetOp]
     (by unfold Adaptive.MaximumInterval; norm_num)⟩

/-- Claim C6: after `ProcessLoadMetrics(load)`, the candidate interval
depends only on the updated fast EMA (through the specification's
three-zone formula `candidateSpec`), and `currentInterval` is set to
the candidate — with the registered `onIntervalChange` callback
invoked on it — iff the candidate differs from the old interval by
strictly more than the 10% deadband; otherwise nothing changes.  The
hypothesis restricts to positive current intervals, where the real
division of the model agrees with Go's float division. -/
theorem claim6_candidate_deadband (g : Adaptive.AdaptiveGovernor) (load : ℝ)
    (_hpos : 0 < g.currentInterval) :
    (Adaptive.ProcessLoadMetrics g load).1.currentInterval =
      (if |Adaptive.candidateSpec g.baseInterval
             ((g.fastEMA.Update (Adaptive.clampLoad load)).value)
           - g.currentInterval| / g.currentInterval > 0.1
       then Adaptive.candidateSpec g.baseInterval
              ((g.fastEMA.Update (Adaptive.clampLoad load)).value)
       else g.currentInterval) ∧
    (Adaptive.ProcessLoadMetrics g load).2 =
      (if |Adaptive.candidateSpec g.baseInterval
             ((g.fastEMA.Update (Adaptive.clampLoad load)).value)
           - g.currentInterval| / g.currentInterval > 0.1 ∧ g.cbSet = true
       then [Adaptive.candidateSpec g.baseInterval
               ((g.fastEMA.Update (Adaptive.clampLoad load)).value)]
       else []) := by
  unfold Adaptive.ProcessLoadMetrics Adaptive.adjustInterval
  dsimp only
  rw [adjustNewInterval_eq_candidateSpec]
  dsimp only
  constructor
  · split_ifs <;> rfl
  · by_cases h1 : |Adaptive.candidateSpec g.baseInterval
        ((g.fastEMA.Update (Adaptive.clampLoad load)).value)
        - g.currentInterval| / g.currentInterval > 0.1
    · by_cases hcb : g.cbSet = true
      · simp [h1, hcb]
      · simp [h1, hcb]
    · simp [h1]

/-- Witness for claim C6: a freshly constructed governor with a 1 s
base interval, a registered callback and a zero-load update. -/
theorem claim6_witness :
    0 < (Adaptive.NewAdaptiveGovernor 1000000000 true).currentInterval ∧
    ((Adaptive.ProcessLoadMetrics (Adaptive.NewAdaptiveGovernor 1000000000 true) 0).1.currentInterval =
      (if |Adaptive.candidateSpec (Adaptive.NewAdaptiveGovernor 1000000000 true).baseInterval
             (((Adaptive.NewAdaptiveGovernor 1000000000 true).fastEMA.Update (Adaptive.clampLoad 0)).value)
           - (Adaptive.NewAdaptiveGovernor 1000000000 true).currentInterval|
             / (Adaptive.NewAdaptiveGovernor 1000000000 true).currentInterval > 0.1
       then Adaptive.candidateSpec (Adaptive.NewAdaptiveGovernor 1000000000 true).baseInterval
              (((Adaptive.NewAdaptiveGovernor 1000000000 true).fastEMA.Update (Adaptive.clampLoad 0)).value)
       else (Adaptive.NewAdaptiveGovernor 1000000000 true).currentInterval) ∧
     (Adaptive.ProcessLoadMetrics (Adaptive.NewAdaptiveGovernor 1000000000 true) 0).2 =
      (if |Adaptive.candidateSpec (Adaptive.NewAdaptiveGovernor 1000000000 true).baseInterval
             (((Adaptive.NewAdaptiveGovernor 1000000000 true).fastEMA.Update (Adaptive.clampLoad 0)).value)
           - (Adaptive.NewAdaptiveGovernor 1000000000 true).currentInterval|
             / (Adaptive.NewAdaptiveGovernor 1000000000 true).currentInterval > 0.1 ∧
           (Adaptive.NewAdaptiveGovernor 1000000000 true).cbSet = true
       then [Adaptive.candidateSpec (Adaptive.NewAdaptiveGovernor 1000000000 true).baseInterval
               (((Adaptive.NewAdaptiveGovernor 1000000000 true).fastEMA.Update (Adaptive.clampLoad 0)).value)]
       else [])) :=
  ⟨by unfold Adaptive.NewAdaptiveGovernor Adaptive.MinimumInterval; norm_num,
   claim6_candidate_deadband (Adaptive.NewAdaptiveGovernor 1000000000 true) 0
     (by unfold Adaptive.NewAdaptiveGovernor Adaptive.MinimumInterval; norm_num)⟩
